import Mathlib

/-!
Verification of the Interim-app job-board backend (Flask + MongoDB).

This file shallowly embeds the core of the backend in Lean 4:

* `app/database.py` — the generic Mongo helpers (`find_documents`,
  `update_document`, `delete_document`, `count_documents`), modelled over
  lists of documents; `update_one`/`delete_one` act on the first matching
  document, and `modified_count`/`deleted_count` follow Mongo semantics.
* `app/auth/__init__.py` — the JWT token service (`generate_token`,
  `verify_token`) and the `company_required`/`login_required` gates.
  The PyJWT library itself is modelled by its documented contract:
  `jwt.decode` checks the HMAC signature and the `exp` claim and raises
  `ExpiredSignatureError` / `InvalidTokenError` accordingly.
* `app/models/user.py` — bcrypt password hashing (`hash_password`,
  `check_password`); the bcrypt library is modelled by its documented
  contract (the hash embeds a fresh salt; `checkpw` re-derives the digest
  from the stored salt).
* `app/models/application.py` and `app/routes/applications.py` — the
  application lifecycle: `create_application`, `Application.save`,
  `Application.delete_by_id`, `update_application_status`, and the
  derived `candidatures_count` job counter.
* pagination arithmetic of `app/routes/jobs.py` / `app/routes/applications.py`.

Timestamps (`datetime.utcnow()`) are modelled as natural numbers (seconds);
Mongo ObjectIds are modelled as the strings the code converts them to.
-/

namespace InterimApp

/-! ## Generic store helpers (`app/database.py`) -/

/-- `find_document(collection, query)`: `collection.find_one(query)` returns
the first document matching the query, if any. -/
def find_document {α : Type} (coll : List α) (query : α → Bool) : Option α :=
  coll.find? query

/-- `insert_document(collection, document)`: appends the document to the
collection (the store assigns ids; our model threads them explicitly). -/
def insert_document {α : Type} (coll : List α) (doc : α) : List α :=
  coll ++ [doc]

/-- `count_documents(collection, query)`: number of documents matching. -/
def count_documents {α : Type} (coll : List α) (query : α → Bool) : Nat :=
  (coll.filter query).length

/-- `find_documents(collection, query, limit, skip, ...)`: filters, then
applies `skip` and `limit` under Python truthiness guards (`if skip:` /
`if limit:`), so a `skip` or `limit` of `0` (or `None`, collapsed to `0`
in the model) is not applied at all. Sorting permutes the filtered list
before skip/limit; it is passed explicitly here. -/
def find_documents {α : Type} (coll : List α) (query : α → Bool)
    (sort : List α → List α) (skip limit : Nat) : List α :=
  let cursor := sort (coll.filter query)
  let cursor := if skip ≠ 0 then cursor.drop skip else cursor
  if limit ≠ 0 then cursor.take limit else cursor

/-- `update_document(collection, query, {'$set': ...})`: Mongo `update_one`
applies the update to the first matching document; `modified_count` is 1
exactly when that document's stored fields actually changed, so the helper
returns `modified_count > 0`. Returns the new collection and that flag. -/
def update_document {α : Type} [DecidableEq α]
    (coll : List α) (query : α → Bool) (upd : α → α) : List α × Bool :=
  match coll with
  | [] => ([], false)
  | d :: ds =>
    if query d then (upd d :: ds, decide (upd d ≠ d))
    else
      let r := update_document ds query upd
      (d :: r.1, r.2)

/-- `delete_document(collection, query)`: Mongo `delete_one` removes the
first matching document; returns `deleted_count > 0`. -/
def delete_document {α : Type} (coll : List α) (query : α → Bool) :
    List α × Bool :=
  match coll with
  | [] => ([], false)
  | d :: ds =>
    if query d then (ds, true)
    else
      let r := delete_document ds query
      (d :: r.1, r.2)

/-! ## Token service (`app/auth/__init__.py`, `app/config.py`) -/

/-- JWT payload as built by `generate_token`: `user_id`, `user_type`
(`'user'` or `'company'`), `exp`, `iat` (seconds). -/
structure TokenPayload where
  user_id : String
  user_type : String
  exp : Nat
  iat : Nat
deriving DecidableEq, Repr

/-- Model of the HS256 signature over the payload with the process-wide
secret: an injective encoding of (secret, payload), standing for the MAC. -/
def hs256Sign (secret : String) (p : TokenPayload) : String :=
  secret ++ "|" ++ p.user_id ++ "|" ++ p.user_type ++ "|"
    ++ toString p.exp ++ "|" ++ toString p.iat

/-- An encoded JWT: payload plus signature. -/
structure Token where
  payload : TokenPayload
  signature : String
deriving DecidableEq, Repr

/-- The two PyJWT failure modes the code catches separately:
`jwt.ExpiredSignatureError` and `jwt.InvalidTokenError`. -/
inductive JwtError where
  | expiredSignature
  | invalidToken
deriving DecidableEq, Repr

/-- Model of PyJWT `jwt.decode(token, secret, algorithms=['HS256'])`:
rejects a bad signature/structure with `InvalidTokenError`, rejects an
elapsed `exp` claim with `ExpiredSignatureError`, otherwise returns the
payload. -/
def jwtDecode (secret : String) (now : Nat) (t : Token) :
    Except JwtError TokenPayload :=
  if t.signature ≠ hs256Sign secret t.payload then .error .invalidToken
  else if t.payload.exp ≤ now then .error .expiredSignature
  else .ok t.payload

/-- `JWT_ACCESS_TOKEN_EXPIRES = 3600` (`app/config.py`): fixed 1-hour TTL. -/
def JWT_ACCESS_TOKEN_EXPIRES : Nat := 3600

/-- `generate_token(user_id, user_type)`: payload with
`exp = utcnow() + 3600`, `iat = utcnow()`, signed with the config secret. -/
def generate_token (secret : String) (now : Nat)
    (user_id user_type : String) : Token :=
  let payload : TokenPayload :=
    { user_id := user_id
      user_type := user_type
      exp := now + JWT_ACCESS_TOKEN_EXPIRES
      iat := now }
  { payload := payload, signature := hs256Sign secret payload }

/-- `verify_token(token)`: calls `jwt.decode` and returns the payload, but
returns `None` on `ExpiredSignatureError` and `None` on
`InvalidTokenError` — both failure causes map to the same `None`. -/
def verify_token (secret : String) (now : Nat) (t : Token) :
    Option TokenPayload :=
  match jwtDecode secret now t with
  | .ok payload => some payload
  | .error .expiredSignature => none
  | .error .invalidToken => none

/-! ## Authorization gates (`app/auth/__init__.py`) -/

/-- A request as seen by the decorators: the `Authorization` header, when
present, either carries a token after `Bearer` (`some (some t)`) or has no
second word (`some none`, the `IndexError` branch); plus the legacy
session-stored token fallback. -/
structure AuthRequest where
  header_token : Option (Option Token)
  session_token : Option Token
deriving Repr

/-- Outcome of a gated route: the four early returns of the decorators, or
the wrapped handler's result with `(current_user_id, current_user_type)`
attached to the request context. -/
inductive Gate (α : Type) where
  | invalidFormat
  | missingToken
  | invalidToken
  | forbidden
  | allowed (current_user_id current_user_type : String) (result : α)
deriving DecidableEq, Repr

/-- The tail of `company_required` once a token string is in hand: verify,
reject `None` payloads with 401, reject non-company principals with 403,
otherwise attach the principal and run the handler. -/
def company_required_verify {α : Type} (f : String → String → α)
    (secret : String) (now : Nat) (t : Token) : Gate α :=
  match verify_token secret now t with
  | none => .invalidToken
  | some payload =>
    if payload.user_type ≠ "company" then .forbidden
    else .allowed payload.user_id payload.user_type
           (f payload.user_id payload.user_type)

/-- `company_required(f)`: token from the `Authorization` header (else the
session fallback), 401 when absent or invalid, 403 when the verified
payload's `user_type` is not `'company'`, else runs `f` with the principal
attached. -/
def company_required {α : Type} (f : String → String → α) (secret : String)
    (now : Nat) (req : AuthRequest) : Gate α :=
  match req.header_token with
  | some none => .invalidFormat
  | some (some t) => company_required_verify f secret now t
  | none =>
    match req.session_token with
    | some t => company_required_verify f secret now t
    | none => .missingToken

/-! ## Credential store (`app/models/user.py`)

The bcrypt library (`hashpw`, `gensalt`, `checkpw`) is modelled by its
documented contract: `gensalt()` draws a fresh random salt (modelled as a
supply threaded through a `Nat` state), the produced hash embeds the salt
and a digest of (password, salt), and `checkpw` recomputes the digest from
the salt embedded in the stored hash. The digest is modelled as an
injective encoding, standing for the one-way bcrypt KDF. -/

/-- A bcrypt hash string `$2b$..salt..digest`: salt and digest parts. -/
structure BcryptHash where
  salt : Nat
  digest : String × Nat
deriving DecidableEq, Repr

/-- Model of the bcrypt KDF: an injective encoding of (password, salt). -/
def bcryptDigest (password : String) (salt : Nat) : String × Nat :=
  (password, salt)

/-- Model of `bcrypt.gensalt()`: a fresh salt from the random supply and
the advanced supply state. -/
def bcrypt_gensalt (rng : Nat) : Nat × Nat :=
  (rng, rng + 1)

/-- Model of `bcrypt.hashpw(password, salt)`. -/
def bcrypt_hashpw (password : String) (salt : Nat) : BcryptHash :=
  { salt := salt, digest := bcryptDigest password salt }

/-- Model of `bcrypt.checkpw(password, hash)`: recompute the digest from
the salt stored in the hash and compare. -/
def bcrypt_checkpw (password : String) (h : BcryptHash) : Bool :=
  bcryptDigest password h.salt == h.digest

/-- `User.hash_password`: `bcrypt.hashpw(password.encode, bcrypt.gensalt())`;
returns the hash and the advanced salt-supply state. -/
def hash_password (password : String) (rng : Nat) : BcryptHash × Nat :=
  let s := bcrypt_gensalt rng
  (bcrypt_hashpw password s.1, s.2)

/-- `User.check_password`: `bcrypt.checkpw(password, stored_hash)`. -/
def check_password (password : String) (stored : BcryptHash) : Bool :=
  bcrypt_checkpw password stored

/-! ## Pagination arithmetic (`app/routes/jobs.py`, `app/routes/applications.py`)

`page` and `limit` are parsed request integers; the claims exercise only
non-negative values, modelled as `Nat`. -/

/-- `int(request.args.get('limit', 10))`: the default page size. -/
def default_limit : Nat := 10

/-- `limit = min(limit, 100)`: the only clamp the routes apply. -/
def route_limit (requested : Nat) : Nat := min requested 100

/-- `skip = (page - 1) * limit` (`page ≥ 1` in the claims' scope). -/
def route_skip (page limit : Nat) : Nat := (page - 1) * limit

/-- `get_all_jobs` (and `get_user_applications`, `get_company_applications`):
`'pages': (total + limit - 1) // limit`. -/
def jobs_pages (total limit : Nat) : Nat := (total + limit - 1) / limit

/-- `get_all_applications`:
`'pages': (total + limit - 1) // limit if total > 0 else 1`. -/
def applications_pages (total limit : Nat) : Nat :=
  if total > 0 then (total + limit - 1) / limit else 1

/-! ## Document store state (`jobs` and `applications` collections) -/

/-- A document of the `jobs` collection (`Job.to_dict` plus the store id,
kept as the string the code converts it to). -/
structure JobDoc where
  _id : String
  company_id : String
  titre : String
  description : String
  type_contrat : String
  localisation : String
  actif : Bool
  candidatures_count : Nat
  date_creation : Nat
  date_modification : Nat
deriving DecidableEq, Repr

/-- A document of the `applications` collection (`Application.to_dict`
plus the store id, modelled as a `Nat`). -/
structure ApplicationDoc where
  _id : Nat
  user_id : String
  job_id : String
  company_id : String
  lettre_motivation : String
  statut : String
  date_candidature : Nat
  date_modification : Nat
  notes_entreprise : String
deriving DecidableEq, Repr

/-- The store state the application lifecycle touches: the two collections
and the next store-assigned application id. -/
structure DB where
  jobs : List JobDoc
  applications : List ApplicationDoc
  nextId : Nat
deriving DecidableEq, Repr

/-- `Job.find_by_id`: `find_document('jobs', {'_id': ObjectId(job_id)})`. -/
def Job.find_by_id (db : DB) (job_id : String) : Option JobDoc :=
  find_document db.jobs (fun j => j._id == job_id)

/-- `Application.find_by_id`:
`find_document('applications', {'_id': ObjectId(application_id)})`. -/
def Application.find_by_id (db : DB) (application_id : Nat) :
    Option ApplicationDoc :=
  find_document db.applications (fun a => a._id == application_id)

/-- `Application.check_existing_application(user_id, job_id)`. -/
def Application.check_existing_application (db : DB)
    (user_id job_id : String) : Bool :=
  (find_document db.applications
    (fun a => a.user_id == user_id && a.job_id == job_id)).isSome

/-- `Application.update_job_applications_count`: recompute
`count(applications where job_id)` and `$set` it as the job's
`candidatures_count`; returns the `update_document` success flag (the
Python method discards it). -/
def Application.update_job_applications_count (db : DB) (job_id : String) :
    DB × Bool :=
  let count := count_documents db.applications (fun a => a.job_id == job_id)
  let r := update_document db.jobs (fun j => j._id == job_id)
             (fun j => { j with candidatures_count := count })
  ({ db with jobs := r.1 }, r.2)

/-- `Application.__init__` + `to_dict`: the document a fresh `Application`
object serializes to — `statut = "En attente"` (Pending), fresh
timestamps, empty `notes_entreprise` — together with the store-assigned
id. -/
def Application.init (user_id job_id company_id lettre_motivation : String)
    (now : Nat) (_id : Nat) : ApplicationDoc :=
  { _id := _id
    user_id := user_id
    job_id := job_id
    company_id := company_id
    lettre_motivation := lettre_motivation
    statut := "En attente"
    date_candidature := now
    date_modification := now
    notes_entreprise := "" }

/-- `Application.save`: pre-check the `(user_id, job_id)` pair, abort with
`None` if an application exists, else insert the document built by
`Application.__init__` and recount the job's applications. -/
def Application.save (db : DB) (user_id job_id company_id lettre : String)
    (now : Nat) : Option Nat × DB :=
  match find_document db.applications
      (fun a => a.user_id == user_id && a.job_id == job_id) with
  | some _ => (none, db)
  | none =>
    let doc := Application.init user_id job_id company_id lettre now db.nextId
    let db1 : DB :=
      { db with
          applications := insert_document db.applications doc
          nextId := db.nextId + 1 }
    let db2 := (Application.update_job_applications_count db1 job_id).1
    (some doc._id, db2)

/-- `Application.delete_by_id`: fetch the application (for its `job_id`),
`delete_one` it, and when both succeed recount the owning job's
`candidatures_count`; returns the deletion success flag. -/
def Application.delete_by_id (db : DB) (application_id : Nat) : DB × Bool :=
  let app_data := find_document db.applications
    (fun a => a._id == application_id)
  let r := delete_document db.applications (fun a => a._id == application_id)
  let db1 : DB := { db with applications := r.1 }
  match app_data, r.2 with
  | some ad, true =>
    let count := count_documents db1.applications
      (fun a => a.job_id == ad.job_id)
    let u := update_document db1.jobs (fun j => j._id == ad.job_id)
               (fun j => { j with candidatures_count := count })
    ({ db1 with jobs := u.1 }, true)
  | some _, false => (db1, false)
  | none, b => (db1, b)

/-- Python truthiness of an optional string (`if notes:`): `None` and the
empty string are falsy. -/
def truthyStr : Option String → Bool
  | none => false
  | some s => !(s == "")

/-- `Application.update_status`: `$set` the new `statut` and a fresh
`date_modification` (plus `notes_entreprise` when `notes` is truthy) on
the application document; returns the `update_document` success flag. -/
def Application.update_status (db : DB) (application_id : Nat)
    (new_status : String) (notes : Option String) (now : Nat) : DB × Bool :=
  let upd : ApplicationDoc → ApplicationDoc := fun a =>
    let a1 := { a with statut := new_status, date_modification := now }
    if truthyStr notes then
      { a1 with notes_entreprise := notes.getD "" }
    else a1
  let r := update_document db.applications (fun a => a._id == application_id)
             upd
  ({ db with applications := r.1 }, r.2)

/-! ## Route handlers (`app/routes/applications.py`), past the auth gate -/

/-- The outcomes of `create_application` (POST `/applications`), tagged by
the early-return branches of the handler. -/
inductive CreateAppResult where
  | forbiddenNotUser
  | missingJobId
  | jobNotFound
  | jobInactive
  | alreadyApplied
  | created (application_id : Nat)
  | saveError
deriving DecidableEq, Repr

/-- `create_application`: after `login_required` has attached
`(current_user_id, current_user_type)`. Rejects non-user principals (403),
a missing/falsy `job_id` (400), an unresolved job (404), an inactive job
(400), an existing `(user, job)` application (409); otherwise builds the
`Application` with `company_id = job.company_id` and saves it. -/
def create_application (db : DB) (current_user_type current_user_id : String)
    (job_id_field : Option String) (lettre : String) (now : Nat) :
    CreateAppResult × DB :=
  if current_user_type ≠ "user" then (.forbiddenNotUser, db)
  else if !(truthyStr job_id_field) then (.missingJobId, db)
  else
    let job_id := job_id_field.getD ""
    match Job.find_by_id db job_id with
    | none => (.jobNotFound, db)
    | some job =>
      if !job.actif then (.jobInactive, db)
      else if Application.check_existing_application db current_user_id
          job_id then
        (.alreadyApplied, db)
      else
        let r := Application.save db current_user_id job_id job.company_id
          lettre now
        match r.1 with
        | some app_id => (.created app_id, r.2)
        | none => (.saveError, r.2)

/-- The outcomes of `delete_application` (DELETE `/applications/<id>`). -/
inductive DeleteAppResult where
  | appNotFound
  | notOwner
  | deleted
  | deleteError
deriving DecidableEq, Repr

/-- `delete_application`: after `login_required`. 404 when the application
is absent, 403 when the principal owns neither side, else
`Application.delete_by_id`. -/
def delete_application (db : DB)
    (current_user_type current_user_id : String) (application_id : Nat) :
    DeleteAppResult × DB :=
  match Application.find_by_id db application_id with
  | none => (.appNotFound, db)
  | some app =>
    if current_user_type == "user" && app.user_id != current_user_id then
      (.notOwner, db)
    else if current_user_type == "company"
        && app.company_id != current_user_id then
      (.notOwner, db)
    else
      let r := Application.delete_by_id db application_id
      if r.2 then (.deleted, r.1) else (.deleteError, r.1)

/-- The outcomes of `update_application_status`
(PUT `/applications/<id>/status`). -/
inductive UpdateStatusResult where
  | appNotFound
  | notOwner
  | missingStatus
  | invalidStatus
  | updated
  | updateError
deriving DecidableEq, Repr

/-- `valid_statuts = ['En attente', 'Acceptée', 'Refusée']` — Pending,
Accepted, Rejected. -/
def valid_statuts : List String := ["En attente", "Acceptée", "Refusée"]

/-- `update_application_status`: after `company_required` has attached the
company principal. 404 when the application is absent, 403 when it belongs
to another company, 400 when `statut` is missing/falsy or outside
`valid_statuts`; else `Application.update_status`. -/
def update_application_status (db : DB) (current_company_id : String)
    (application_id : Nat) (statut_field : Option String)
    (notes : Option String) (now : Nat) : UpdateStatusResult × DB :=
  match Application.find_by_id db application_id with
  | none => (.appNotFound, db)
  | some app =>
    if app.company_id ≠ current_company_id then (.notOwner, db)
    else if !(truthyStr statut_field) then (.missingStatus, db)
    else
      let st := statut_field.getD ""
      if !(valid_statuts.contains st) then (.invalidStatus, db)
      else
        let r := Application.update_status db application_id st notes now
        if r.2 then (.updated, r.1) else (.updateError, r.1)

/-! ## Concrete states for examples -/

/-- A concrete job document (stale stored counter of 7). -/
def jobW : JobDoc :=
  { _id := "j1", company_id := "c1", titre := "Python Dev",
    description := "d", type_contrat := "CDI", localisation := "Paris",
    actif := true, candidatures_count := 7, date_creation := 0,
    date_modification := 0 }

/-- A concrete application document for `jobW`. -/
def appW : ApplicationDoc :=
  { _id := 0, user_id := "u1", job_id := "j1", company_id := "c1",
    lettre_motivation := "", statut := "En attente", date_candidature := 0,
    date_modification := 0, notes_entreprise := "" }

/-- A concrete store: one job, one application for it. -/
def dbW : DB := { jobs := [jobW], applications := [appW], nextId := 1 }

/-- A concrete store: one job, no applications. -/
def dbW0 : DB := { jobs := [jobW], applications := [], nextId := 0 }

/-! ## Helper lemmas about the store helpers -/

/-- `update_document` reports success exactly when the first matching
document is actually changed by the update. -/
theorem update_document_snd_iff {α : Type} [DecidableEq α]
    (q : α → Bool) (u : α → α) :
    ∀ coll : List α,
      ((update_document coll q u).2 = true ↔
        ∃ d, coll.find? q = some d ∧ u d ≠ d)
  | [] => by simp [update_document]
  | d :: ds => by
    by_cases h : q d
    · simp [update_document, h, List.find?_cons_of_pos _ h]
    · simp only [update_document, h, if_false, Bool.false_eq_true,
        List.find?_cons_of_neg _ h]
      exact update_document_snd_iff q u ds

/-- `update_document` rewrites the first matching document in place, so a
subsequent `find?` with the same query sees its image under the update
(provided the update preserves matching). -/
theorem update_document_fst_find? {α : Type} [DecidableEq α]
    (q : α → Bool) (u : α → α) (hu : ∀ d, q d = true → q (u d) = true) :
    ∀ coll : List α,
      (update_document coll q u).1.find? q = (coll.find? q).map u
  | [] => by simp [update_document]
  | d :: ds => by
    by_cases h : q d
    · simp [update_document, h, List.find?_cons_of_pos _ h,
        List.find?_cons_of_pos _ (hu d h)]
    · simp only [update_document, h, Bool.false_eq_true, if_false,
        List.find?_cons_of_neg _ h]
      exact update_document_fst_find? q u hu ds

/-- Deleting by a query that the appended document matches, over a prefix
with no match, removes exactly that document. -/
theorem delete_document_append_singleton {α : Type} (q : α → Bool) (d : α)
    (hd : q d = true) :
    ∀ l : List α, (∀ a ∈ l, q a = false) →
      delete_document (l ++ [d]) q = (l, true)
  | [], _ => by simp [delete_document, hd]
  | a :: l, h => by
    have ha : q a = false := h a (List.mem_cons_self a l)
    have hl : ∀ x ∈ l, q x = false := fun x hx => h x (List.mem_cons_of_mem a hx)
    have ih := delete_document_append_singleton q d hd l hl
    simp only [List.cons_append, delete_document, ha, Bool.false_eq_true,
      if_false]
    exact congrArg (fun p : List α × Bool => (a :: p.1, p.2)) ih

/-- `find_one` on a prefix with no match followed by a matching document
returns that document. -/
theorem find_document_append_singleton {α : Type} (q : α → Bool) (d : α)
    (hd : q d = true) (l : List α) (h : ∀ a ∈ l, q a = false) :
    find_document (l ++ [d]) q = some d := by
  unfold find_document
  rw [List.find?_append]
  have : l.find? q = none := List.find?_eq_none.2 (by
    intro x hx hqx
    rw [h x hx] at hqx
    exact Bool.false_ne_true hqx)
  simp [this, List.find?_cons_of_pos _ hd]

/-- A successful `find_one` forces a successful `delete_one` with the same
query. -/
theorem delete_document_snd_of_find? {α : Type} (q : α → Bool) (d : α) :
    ∀ l : List α, l.find? q = some d → (delete_document l q).2 = true
  | [], h => by simp at h
  | a :: l, h => by
    by_cases ha : q a
    · simp [delete_document, ha]
    · rw [List.find?_cons_of_neg _ ha] at h
      simp only [delete_document, ha, Bool.false_eq_true, if_false]
      exact delete_document_snd_of_find? q d l h

/-- A collection in which no document matches counts zero matches. -/
theorem count_documents_eq_zero {α : Type} (q : α → Bool) (l : List α)
    (h : ∀ a ∈ l, q a = false) : count_documents l q = 0 := by
  unfold count_documents
  rw [List.length_eq_zero, List.filter_eq_nil_iff]
  intro a ha
  rw [h a ha]
  exact Bool.false_ne_true

/-- What `Application.update_job_applications_count` does to the state: the
`applications` collection and the id counter are untouched, and the job
found under `job_id` afterwards stores the fresh count of applications for
that job. -/
theorem update_job_applications_count_spec (db : DB) (job_id : String) :
    (Application.update_job_applications_count db job_id).1.applications
        = db.applications
    ∧ (Application.update_job_applications_count db job_id).1.nextId
        = db.nextId
    ∧ ∀ jb, Job.find_by_id
          (Application.update_job_applications_count db job_id).1 job_id
        = some jb →
        jb.candidatures_count =
          count_documents db.applications (fun a => a.job_id == job_id) := by
  refine ⟨rfl, rfl, ?_⟩
  intro jb hjb
  have hjobs : (Application.update_job_applications_count db job_id).1.jobs
      = (update_document db.jobs (fun j => j._id == job_id)
          (fun j => { j with
            candidatures_count :=
              count_documents db.applications
                (fun a => a.job_id == job_id) })).1 := rfl
  unfold Job.find_by_id find_document at hjb
  rw [hjobs] at hjb
  rw [update_document_fst_find? (fun j : JobDoc => j._id == job_id)
    (fun j => { j with
      candidatures_count :=
        count_documents db.applications (fun a => a.job_id == job_id) })
    (fun d hd => hd)] at hjb
  cases hbase : db.jobs.find? (fun j => j._id == job_id) with
  | none => rw [hbase] at hjb; simp at hjb
  | some jb0 =>
    rw [hbase] at hjb
    simp only [Option.map_some'] at hjb
    injection hjb with h
    rw [← h]

/-- On the happy path (user principal, job present and active, no prior
application for the pair), `create_application` returns 201 with the
store-assigned id and the state produced by inserting the new document and
recounting the job's applications. -/
theorem create_application_success_eq (db : DB) (uid jid lettre : String)
    (now : Nat) (job : JobDoc)
    (hjid : jid ≠ "")
    (hjob : Job.find_by_id db jid = some job)
    (hact : job.actif = true)
    (hex : Application.check_existing_application db uid jid = false) :
    create_application db "user" uid (some jid) lettre now =
      (.created db.nextId,
       (Application.update_job_applications_count
         { db with
             applications := insert_document db.applications
               (Application.init uid jid job.company_id lettre now db.nextId)
             nextId := db.nextId + 1 } jid).1) := by
  have htr : truthyStr (some jid) = true := by
    simp [truthyStr]
    exact hjid
  have hnone : find_document db.applications
      (fun a => a.user_id == uid && a.job_id == jid) = none := by
    unfold Application.check_existing_application at hex
    cases hfd : find_document db.applications
        (fun a => a.user_id == uid && a.job_id == jid) with
    | none => rfl
    | some a => rw [hfd] at hex; simp at hex
  unfold create_application
  rw [if_neg (fun hcon => hcon rfl)]
  rw [htr]
  simp only [Bool.not_true, Bool.false_eq_true, if_false, Option.getD_some]
  rw [hjob]
  simp only [hact, Bool.not_true, Bool.false_eq_true, if_false, hex]
  unfold Application.save
  rw [hnone]
  rfl

/-- Given a successful pre-fetch, `Application.delete_by_id` deletes the
first application with that id and persists a fresh count of the owning
job's applications. -/
theorem delete_by_id_eq (db : DB) (app_id : Nat) (ad : ApplicationDoc)
    (hfind : Application.find_by_id db app_id = some ad) :
    Application.delete_by_id db app_id =
      ({ db with
           applications :=
             (delete_document db.applications (fun a => a._id == app_id)).1
           jobs :=
             (update_document db.jobs (fun j => j._id == ad.job_id)
               (fun j => { j with
                 candidatures_count :=
                   count_documents
                     (delete_document db.applications
                       (fun a => a._id == app_id)).1
                     (fun a => a.job_id == ad.job_id) })).1 },
       true) := by
  have hfind' : find_document db.applications
      (fun a => a._id == app_id) = some ad := hfind
  have hdel : (delete_document db.applications
      (fun a => a._id == app_id)).2 = true := by
    unfold Application.find_by_id find_document at hfind
    exact delete_document_snd_of_find? _ ad _ hfind
  unfold Application.delete_by_id
  simp only [hfind', hdel]

/-- Reducing `company_required` when the `Authorization` header carries a
bearer token. -/
theorem company_required_header {α : Type} (f : String → String → α)
    (secret : String) (now : Nat) (t : Token) (sess : Option Token) :
    company_required f secret now
        { header_token := some (some t), session_token := sess } =
      company_required_verify f secret now t := rfl

/-! ## Claim theorems -/

/-- C3: for every principal id and kind, a token freshly issued for
`(id, kind)` verifies successfully at any time before its expiry, and the
returned payload carries that principal id and kind. -/
theorem verify_generate_roundtrip (secret id kind : String)
    (issued now : Nat) (h : now < issued + JWT_ACCESS_TOKEN_EXPIRES) :
    ∃ p, verify_token secret now (generate_token secret issued id kind)
        = some p
      ∧ p.user_id = id ∧ p.user_type = kind := by
  refine ⟨(generate_token secret issued id kind).payload, ?_, rfl, rfl⟩
  unfold verify_token jwtDecode
  rw [if_neg (fun hcon => hcon rfl),
    if_neg (show ¬((generate_token secret issued id kind).payload.exp ≤ now)
      from Nat.not_le.mpr h)]

/-- Witness for C3 at a concrete issue time, verification time, id and
kind. -/
theorem verify_generate_roundtrip_witness :
    (10 : Nat) < 0 + JWT_ACCESS_TOKEN_EXPIRES
    ∧ ∃ p, verify_token "s" 10 (generate_token "s" 0 "u1" "user") = some p
        ∧ p.user_id = "u1" ∧ p.user_type = "user" :=
  ⟨by decide, verify_generate_roundtrip "s" "u1" "user" 0 10 (by decide)⟩

/-- C4 counterexample: `verify_token` does not distinguish failure causes.
The underlying decode classifies the first token as expired and the second
as malformed (tampered signature), yet `verify_token` returns the same
`none` for both, so no `Expired`-vs-`Malformed` distinction reaches the
caller. -/
theorem verify_token_no_error_distinction :
    jwtDecode "s" 4000 (generate_token "s" 0 "u1" "user")
        = .error .expiredSignature
    ∧ jwtDecode "s" 10
        { payload := (generate_token "s" 0 "u1" "user").payload
          signature := "bogus" } = .error .invalidToken
    ∧ verify_token "s" 4000 (generate_token "s" 0 "u1" "user") = none
    ∧ verify_token "s" 10
        { payload := (generate_token "s" 0 "u1" "user").payload
          signature := "bogus" } = none
    ∧ verify_token "s" 4000 (generate_token "s" 0 "u1" "user")
        = verify_token "s" 10
            { payload := (generate_token "s" 0 "u1" "user").payload
              signature := "bogus" } := by
  exact ⟨rfl, rfl, rfl, rfl, rfl⟩

/-- C4 (amended): `verify_token` returns `none` both when the token is
expired (fixed 1-hour TTL) and when the signature or structure is invalid
— the two failure causes collapse to the same result — and succeeds
returning the payload otherwise; in particular a token verified after its
TTL elapses yields `none`. -/
theorem verify_token_amended (secret : String) (now : Nat) (t : Token) :
    (jwtDecode secret now t = .error .expiredSignature →
        verify_token secret now t = none)
    ∧ (jwtDecode secret now t = .error .invalidToken →
        verify_token secret now t = none)
    ∧ (t.signature = hs256Sign secret t.payload → now < t.payload.exp →
        verify_token secret now t = some t.payload)
    ∧ (t.payload.exp ≤ now → verify_token secret now t = none) := by
  refine ⟨?_, ?_, ?_, ?_⟩
  · intro h; unfold verify_token; rw [h]
  · intro h; unfold verify_token; rw [h]
  · intro hsig hlt
    unfold verify_token jwtDecode
    rw [if_neg (fun hc => hc hsig), if_neg (Nat.not_le.mpr hlt)]
  · intro hexp
    unfold verify_token jwtDecode
    by_cases hsig : t.signature = hs256Sign secret t.payload
    · rw [if_neg (fun hc => hc hsig), if_pos hexp]
    · rw [if_pos hsig]

/-- Witness for C4's amended theorem: a token issued at time 0 verified at
time 4000 (past the 3600-second TTL) yields `none`. -/
theorem verify_token_amended_witness :
    verify_token "s" 4000 (generate_token "s" 0 "u1" "user") = none :=
  (verify_token_amended "s" 4000
    (generate_token "s" 0 "u1" "user")).2.2.2 (by decide)

/-- C6: verifying a password against the hash just produced for it
succeeds, and two successive calls of `hash_password` on the same password
(threading the fresh-salt supply) produce different hashes. -/
theorem hash_password_spec (p : String) (rng : Nat) :
    check_password p (hash_password p rng).1 = true
    ∧ (hash_password p rng).1
        ≠ (hash_password p (hash_password p rng).2).1 := by
  constructor
  · simp [check_password, bcrypt_checkpw, hash_password, bcrypt_hashpw,
      bcrypt_gensalt]
  · intro hcon
    have hsalt := congrArg BcryptHash.salt hcon
    simp only [hash_password, bcrypt_hashpw, bcrypt_gensalt] at hsalt
    omega

/-- C8 counterexample: a requested `limit` of 0 is not clamped into
`[1, 100]` (it stays 0, since the routes only apply `min(limit, 100)`),
and `get_all_jobs` reports 0 pages — not 1 — when `total = 0`. -/
theorem pagination_claim_counterexample :
    route_limit 0 = 0 ∧ ¬(1 ≤ route_limit 0) ∧ jobs_pages 0 10 = 0 := by
  decide

/-- C8 (amended): `skip = (page-1)*limit`; the effective limit is
`min(requested, 100)` — clamped from above only, so 1000 becomes 100 and
the default is 10, but 0 passes through; `get_all_applications` reports
`ceil(total/limit)` pages with a floor of 1 when `total = 0`, while
`get_all_jobs` reports `ceil(total/limit)` with no floor (0 pages when
`total = 0`). -/
theorem pagination_spec (page limit total requested : Nat)
    (hl : 1 ≤ limit) :
    route_skip page limit = (page - 1) * limit
    ∧ route_limit requested = min requested 100
    ∧ route_limit 1000 = 100
    ∧ route_limit default_limit = 10
    ∧ jobs_pages total limit = total ⌈/⌉ limit
    ∧ (0 < total → applications_pages total limit = total ⌈/⌉ limit)
    ∧ applications_pages 0 limit = 1
    ∧ jobs_pages 0 limit = 0 := by
  refine ⟨rfl, rfl, rfl, rfl, ?_, ?_, ?_, ?_⟩
  · rw [Nat.ceilDiv_eq_add_pred_div]; rfl
  · intro ht
    rw [Nat.ceilDiv_eq_add_pred_div]
    simp [applications_pages, ht]
  · simp [applications_pages]
  · simp only [jobs_pages, Nat.zero_add]
    exact Nat.div_eq_of_lt (by omega)

/-- Witness for C8's amended theorem at `page = 2`, `limit = 10`,
`total = 15`, `requested = 1000`. -/
theorem pagination_spec_witness :
    route_skip 2 10 = 10
    ∧ route_limit 1000 = 100
    ∧ jobs_pages 15 10 = 2
    ∧ applications_pages 0 10 = 1
    ∧ jobs_pages 0 10 = 0 := by
  have h := pagination_spec 2 10 15 1000 (by decide)
  refine ⟨h.1, h.2.2.1, ?_, ?_, h.2.2.2.2.2.2.2⟩
  · rw [h.2.2.2.2.1]; decide
  · exact h.2.2.2.2.2.2.1

/-- C9: the `find_documents` helper treats `limit = 0` (and `skip = 0`) as
absent because of Python truthiness guards, so such a call applies no
limit and returns every matching document (the sorted filter, a
permutation of all matches); and the routes clamp only from above with
`min(limit, 100)`, so a requested `limit = 0` reaches the store
unclamped. -/
theorem find_documents_limit_zero {α : Type} (coll : List α)
    (query : α → Bool) (sort : List α → List α)
    (hs : ∀ l : List α, (sort l).Perm l) :
    find_documents coll query sort 0 0 = sort (coll.filter query)
    ∧ (find_documents coll query sort 0 0).Perm (coll.filter query)
    ∧ route_limit 0 = 0 :=
  ⟨rfl, hs _, rfl⟩

/-- Witness for C9 on a concrete collection with the identity sort. -/
theorem find_documents_limit_zero_witness :
    find_documents [1, 2, 3] (fun n => n % 2 == 1) id 0 0
        = List.filter (fun n => n % 2 == 1) [1, 2, 3]
    ∧ (find_documents [1, 2, 3] (fun n => n % 2 == 1) id 0 0).Perm
        (List.filter (fun n => n % 2 == 1) [1, 2, 3])
    ∧ route_limit 0 = 0 :=
  find_documents_limit_zero [1, 2, 3] (fun n => n % 2 == 1) id
    (fun l => List.Perm.refl l)

/-- C10: `update_document` reports success exactly when the first matching
document actually changed (`modified_count > 0`); in particular the
counter recompute of `update_job_applications_count` reports success
exactly when the fresh count differs from the stored
`candidatures_count`. -/
theorem update_document_modified_iff :
    (∀ (α : Type) [DecidableEq α] (coll : List α) (q : α → Bool)
        (u : α → α),
        ((update_document coll q u).2 = true ↔
          ∃ d, coll.find? q = some d ∧ u d ≠ d))
    ∧ ∀ (db : DB) (job_id : String) (jb : JobDoc),
        Job.find_by_id db job_id = some jb →
        ((Application.update_job_applications_count db job_id).2 = true ↔
          jb.candidatures_count ≠
            count_documents db.applications
              (fun a => a.job_id == job_id)) := by
  constructor
  · intro α _ coll q u
    exact update_document_snd_iff q u coll
  · intro db job_id jb hfind
    have hsnd : (Application.update_job_applications_count db job_id).2
        = (update_document db.jobs (fun j => j._id == job_id)
            (fun j => { j with
              candidatures_count :=
                count_documents db.applications
                  (fun a => a.job_id == job_id) })).2 := rfl
    rw [hsnd, update_document_snd_iff]
    unfold Job.find_by_id find_document at hfind
    constructor
    · rintro ⟨d, hd, hne⟩
      rw [hfind] at hd
      injection hd with hd
      subst hd
      intro hcon
      apply hne
      cases jb
      simp only at hcon ⊢
      rw [← hcon]
    · intro hne
      refine ⟨jb, hfind, fun hcon => hne ?_⟩
      have := congrArg JobDoc.candidatures_count hcon
      simpa using this.symm

/-- Witness for C10: a job storing `candidatures_count = 7` while one
application exists for it — the recompute writes 1 and reports success. -/
theorem update_document_modified_iff_witness :
    (Application.update_job_applications_count dbW "j1").2 = true :=
  (update_document_modified_iff.2 dbW "j1" jobW (by decide)).mpr (by decide)

/-- C5: for a request whose bearer token verifies to payload `p`, the
`company_required` gate ends in `forbidden` (403) exactly when
`p.user_type` is not `'company'`; when it is `'company'` the gate attaches
`(principalId, principalKind)` and admits the request, running the
handler. -/
theorem company_required_gate {α : Type} (f : String → String → α)
    (secret : String) (now : Nat) (t : Token) (sess : Option Token)
    (p : TokenPayload)
    (hv : verify_token secret now t = some p) :
    (company_required f secret now
        { header_token := some (some t), session_token := sess }
          = Gate.forbidden
      ↔ p.user_type ≠ "company")
    ∧ (p.user_type = "company" →
        company_required f secret now
            { header_token := some (some t), session_token := sess }
          = Gate.allowed p.user_id p.user_type (f p.user_id p.user_type)) := by
  simp only [company_required_header]
  unfold company_required_verify
  simp only [hv]
  by_cases hk : p.user_type = "company"
  · rw [if_neg (fun hc => hc hk)]
    refine ⟨⟨fun hcon => Gate.noConfusion hcon, fun hne => absurd hk hne⟩,
      fun _ => rfl⟩
  · rw [if_pos hk]
    exact ⟨⟨fun _ => hk, fun _ => rfl⟩, fun heq => absurd heq hk⟩

/-- Witness for C5: a company token admitted with the principal attached. -/
theorem company_required_gate_witness :
    company_required (fun a b => (a, b)) "s" 10
        { header_token := some (some (generate_token "s" 0 "c1" "company"))
          session_token := none }
      = Gate.allowed "c1" "company" ("c1", "company") :=
  (company_required_gate (fun a b => (a, b)) "s" 10
      (generate_token "s" 0 "c1" "company") none
      (generate_token "s" 0 "c1" "company").payload rfl).2 rfl

/-- C7: for an existing application owned by the requesting company, a
`statut` outside `{En attente, Acceptée, Refusée}` makes
`update_application_status` fail with a 400 (invalid or missing status)
and leave the store untouched; a valid `statut` updates the stored
application to carry that status, a fresh modification timestamp (and the
notes when truthy), and never touches the `jobs` collection (so no job's
`candidatures_count` changes). -/
theorem update_application_status_spec (db : DB) (company_id : String)
    (app_id : Nat) (app : ApplicationDoc) (st : String)
    (notes : Option String) (now : Nat)
    (hfind : Application.find_by_id db app_id = some app)
    (hown : app.company_id = company_id) :
    (st ∉ valid_statuts →
      (update_application_status db company_id app_id (some st) notes
          now).2 = db
      ∧ ((update_application_status db company_id app_id (some st) notes
            now).1 = .invalidStatus
        ∨ (update_application_status db company_id app_id (some st) notes
            now).1 = .missingStatus))
    ∧ (st ∈ valid_statuts →
        (update_application_status db company_id app_id (some st) notes
            now).2.jobs = db.jobs
        ∧ Application.find_by_id
            (update_application_status db company_id app_id (some st)
              notes now).2 app_id
          = some { app with
                     statut := st
                     date_modification := now
                     notes_entreprise :=
                       if truthyStr notes then notes.getD ""
                       else app.notes_entreprise }) := by
  have hred : update_application_status db company_id app_id (some st)
      notes now
      = if !(truthyStr (some st)) then (.missingStatus, db)
        else if !(valid_statuts.contains st) then (.invalidStatus, db)
        else
          (if (Application.update_status db app_id st notes now).2 then
            UpdateStatusResult.updated
          else .updateError,
            (Application.update_status db app_id st notes now).1) := by
    unfold update_application_status
    simp only [hfind, Option.getD_some]
    rw [if_neg (fun hc => hc hown)]
    split
    · rfl
    · split
      · rfl
      · split <;> rfl
  constructor
  · intro hst
    by_cases hemp : st = ""
    · subst hemp
      rw [hred]
      exact ⟨rfl, Or.inr rfl⟩
    · have htr : truthyStr (some st) = true := by
        simp [truthyStr]; exact hemp
      have hcont : valid_statuts.contains st = false := by
        cases hc : valid_statuts.contains st with
        | false => rfl
        | true =>
          exact absurd (List.mem_of_elem_eq_true hc) hst
      rw [hred, htr, hcont]
      exact ⟨rfl, Or.inl rfl⟩
  · intro hst
    have hemp : st ≠ "" := by
      have hm := hst
      simp only [valid_statuts, List.mem_cons, List.not_mem_nil,
        or_false] at hm
      rcases hm with rfl | rfl | rfl <;> decide
    have htr : truthyStr (some st) = true := by
      simp [truthyStr]; exact hemp
    have hcont : valid_statuts.contains st = true :=
      List.elem_eq_true_of_mem hst
    rw [hred, htr, hcont]
    simp only [Bool.not_true, Bool.false_eq_true, if_false]
    constructor
    · rfl
    · have hfind' : db.applications.find? (fun a => a._id == app_id)
          = some app := hfind
      have hmap := update_document_fst_find?
        (fun a : ApplicationDoc => a._id == app_id)
        (fun a =>
          if truthyStr notes then
            { a with statut := st, date_modification := now,
                     notes_entreprise := notes.getD "" }
          else { a with statut := st, date_modification := now })
        (fun d hd => by
          simp only []
          by_cases hn : truthyStr notes = true
          · rw [if_pos hn]; exact hd
          · rw [if_neg hn]; exact hd) db.applications
      unfold Application.find_by_id find_document
      rw [show (Application.update_status db app_id st notes now).1.applications
            = (update_document db.applications
                (fun a => a._id == app_id)
                (fun a =>
                  if truthyStr notes then
                    { a with statut := st, date_modification := now,
                             notes_entreprise := notes.getD "" }
                  else { a with statut := st, date_modification := now })).1
          from rfl]
      rw [hmap, hfind']
      cases hn : truthyStr notes <;> simp [hn]

/-- Witness for C7: accepting an application updates its stored status and
modification time and leaves the jobs collection untouched. -/
theorem update_application_status_spec_witness :
    (update_application_status dbW "c1" 0 (some "Acceptée") none 99).2.jobs
        = dbW.jobs
    ∧ Application.find_by_id
        (update_application_status dbW "c1" 0 (some "Acceptée") none 99).2 0
      = some { appW with statut := "Acceptée", date_modification := 99 } :=
  (update_application_status_spec dbW "c1" 0 appW "Acceptée" none 99
    (by decide) rfl).2 (by decide)

/-- C1: for a `createApplication` request by a user principal carrying a
job id: an unresolved job fails with 404 (`NotFound`) leaving the store
unchanged; an inactive job fails with 400 (`InvalidState`) leaving the
store unchanged; an existing application for the `(user, job)` pair fails
with 409 (`Conflict`) leaving the store unchanged; otherwise a new
application is inserted whose `company_id` is the job's `company_id` and
whose `statut` is `"En attente"` (Pending). -/
theorem create_application_spec (db : DB) (uid jid lettre : String)
    (now : Nat) (hjid : jid ≠ "") :
    (Job.find_by_id db jid = none →
      create_application db "user" uid (some jid) lettre now
        = (.jobNotFound, db))
    ∧ (∀ job, Job.find_by_id db jid = some job → job.actif = false →
        create_application db "user" uid (some jid) lettre now
          = (.jobInactive, db))
    ∧ (∀ job, Job.find_by_id db jid = some job → job.actif = true →
        Application.check_existing_application db uid jid = true →
        create_application db "user" uid (some jid) lettre now
          = (.alreadyApplied, db))
    ∧ (∀ job, Job.find_by_id db jid = some job → job.actif = true →
        Application.check_existing_application db uid jid = false →
        (create_application db "user" uid (some jid) lettre now).1
            = .created db.nextId
        ∧ (create_application db "user" uid
              (some jid) lettre now).2.applications
            = db.applications
              ++ [Application.init uid jid job.company_id lettre now
                    db.nextId]
        ∧ (Application.init uid jid job.company_id lettre now
            db.nextId).company_id = job.company_id
        ∧ (Application.init uid jid job.company_id lettre now
            db.nextId).statut = "En attente") := by
  have htr : truthyStr (some jid) = true := by
    simp [truthyStr]
    exact hjid
  refine ⟨?_, ?_, ?_, ?_⟩
  · intro hnone
    unfold create_application
    rw [if_neg (fun hc => hc rfl), htr]
    simp only [Bool.not_true, Bool.false_eq_true, if_false,
      Option.getD_some, hnone]
  · intro job hjob hact
    unfold create_application
    rw [if_neg (fun hc => hc rfl), htr]
    simp only [Bool.not_true, Bool.false_eq_true, if_false,
      Option.getD_some, hjob]
    simp [hact]
  · intro job hjob hact hex
    unfold create_application
    rw [if_neg (fun hc => hc rfl), htr]
    simp only [Bool.not_true, Bool.false_eq_true, if_false,
      Option.getD_some, hjob]
    simp [hact, hex]
  · intro job hjob hact hex
    have heq := create_application_success_eq db uid jid lettre now job
      hjid hjob hact hex
    refine ⟨by rw [heq], ?_, rfl, rfl⟩
    have h2 : (create_application db "user" uid (some jid) lettre now).2
        = (Application.update_job_applications_count
            { db with
                applications := insert_document db.applications
                  (Application.init uid jid job.company_id lettre now
                    db.nextId)
                nextId := db.nextId + 1 } jid).1 := by rw [heq]
    rw [h2]
    exact (update_job_applications_count_spec _ jid).1

/-- Witness for C1: the success path on a one-job store with no
applications. -/
theorem create_application_spec_witness :
    ("j1" : String) ≠ ""
    ∧ ((create_application dbW0 "user" "u1" (some "j1") "" 5).1
          = .created 0
      ∧ (create_application dbW0 "user" "u1" (some "j1") "" 5).2.applications
          = dbW0.applications ++ [Application.init "u1" "j1" "c1" "" 5 0]
      ∧ (Application.init "u1" "j1" "c1" "" 5 0).company_id = "c1"
      ∧ (Application.init "u1" "j1" "c1" "" 5 0).statut = "En attente") :=
  ⟨by decide,
    (create_application_spec dbW0 "u1" "j1" "" 5 (by decide)).2.2.2 jobW
      (by decide) rfl (by decide)⟩

/-- C2: after a successful `createApplication`, and after a successful
`deleteApplication`, the job's stored `candidatures_count` equals the
fresh full count of applications whose `job_id` is that job's id (the
counter is recomputed by a full recount, never incremented); in
particular, starting from a store where the job has no applications,
`createApplication` followed by `deleteApplication` of the created
application leaves the job's stored count at 0. -/
theorem applications_count_consistency :
    (∀ (db : DB) (uid jid lettre : String) (now : Nat) (job : JobDoc),
      jid ≠ "" →
      Job.find_by_id db jid = some job →
      job.actif = true →
      Application.check_existing_application db uid jid = false →
      ∀ jb, Job.find_by_id
            (create_application db "user" uid (some jid) lettre now).2 jid
          = some jb →
        jb.candidatures_count =
          count_documents
            (create_application db "user" uid
              (some jid) lettre now).2.applications
            (fun a => a.job_id == jid))
    ∧ (∀ (db : DB) (app_id : Nat) (ad : ApplicationDoc),
        Application.find_by_id db app_id = some ad →
        (Application.delete_by_id db app_id).2 = true
        ∧ ∀ jb, Job.find_by_id (Application.delete_by_id db app_id).1
              ad.job_id = some jb →
            jb.candidatures_count =
              count_documents
                (Application.delete_by_id db app_id).1.applications
                (fun a => a.job_id == ad.job_id))
    ∧ (∀ (db : DB) (uid jid lettre : String) (now : Nat) (job : JobDoc),
        jid ≠ "" →
        Job.find_by_id db jid = some job →
        job.actif = true →
        (∀ a ∈ db.applications, (a.job_id == jid) = false) →
        (∀ a ∈ db.applications, (a._id == db.nextId) = false) →
        ∀ jb, Job.find_by_id
              (Application.delete_by_id
                (create_application db "user" uid (some jid) lettre now).2
                db.nextId).1 jid
            = some jb →
          jb.candidatures_count = 0) := by
  refine ⟨?_, ?_, ?_⟩
  · intro db uid jid lettre now job hjid hjob hact hex jb hjb
    have heq := create_application_success_eq db uid jid lettre now job
      hjid hjob hact hex
    have h2 : (create_application db "user" uid (some jid) lettre now).2
        = (Application.update_job_applications_count
            { db with
                applications := insert_document db.applications
                  (Application.init uid jid job.company_id lettre now
                    db.nextId)
                nextId := db.nextId + 1 } jid).1 := by rw [heq]
    have hspec := update_job_applications_count_spec
      { db with
          applications := insert_document db.applications
            (Application.init uid jid job.company_id lettre now db.nextId)
          nextId := db.nextId + 1 } jid
    rw [h2] at hjb
    rw [h2, hspec.1]
    exact hspec.2.2 jb hjb
  · intro db app_id ad hfind
    have heq := delete_by_id_eq db app_id ad hfind
    constructor
    · rw [heq]
    · intro jb hjb
      have happs : (Application.delete_by_id db app_id).1.applications
          = (delete_document db.applications
              (fun a => a._id == app_id)).1 := by rw [heq]
      have hjobs : (Application.delete_by_id db app_id).1.jobs
          = (update_document db.jobs (fun j => j._id == ad.job_id)
              (fun j => { j with
                candidatures_count :=
                  count_documents
                    (delete_document db.applications
                      (fun a => a._id == app_id)).1
                    (fun a => a.job_id == ad.job_id) })).1 := by rw [heq]
      unfold Job.find_by_id find_document at hjb
      rw [hjobs] at hjb
      rw [update_document_fst_find? (fun j : JobDoc => j._id == ad.job_id)
        (fun j => { j with
          candidatures_count :=
            count_documents
              (delete_document db.applications
                (fun a => a._id == app_id)).1
              (fun a => a.job_id == ad.job_id) })
        (fun d hd => hd)] at hjb
      rw [happs]
      cases hbase : db.jobs.find? (fun j => j._id == ad.job_id) with
      | none => rw [hbase] at hjb; simp at hjb
      | some jb0 =>
        rw [hbase] at hjb
        simp only [Option.map_some'] at hjb
        injection hjb with h
        rw [← h]
  · intro db uid jid lettre now job hjid hjob hact hnoapp hfresh jb hjb
    have hex : Application.check_existing_application db uid jid
        = false := by
      unfold Application.check_existing_application find_document
      have hn : db.applications.find?
          (fun a => a.user_id == uid && a.job_id == jid) = none := by
        rw [List.find?_eq_none]
        intro a ha hpa
        simp only [Bool.and_eq_true] at hpa
        obtain ⟨hp1, hp2⟩ := hpa
        rw [hnoapp a ha] at hp2
        exact Bool.false_ne_true hp2
      rw [hn]
      rfl
    have heq := create_application_success_eq db uid jid lettre now job
      hjid hjob hact hex
    have h2 : (create_application db "user" uid (some jid) lettre now).2
        = (Application.update_job_applications_count
            { db with
                applications := insert_document db.applications
                  (Application.init uid jid job.company_id lettre now
                    db.nextId)
                nextId := db.nextId + 1 } jid).1 := by rw [heq]
    rw [h2] at hjb
    have hspec := update_job_applications_count_spec
      { db with
          applications := insert_document db.applications
            (Application.init uid jid job.company_id lettre now db.nextId)
          nextId := db.nextId + 1 } jid
    have happs2 : (Application.update_job_applications_count
        { db with
            applications := insert_document db.applications
              (Application.init uid jid job.company_id lettre now
                db.nextId)
            nextId := db.nextId + 1 } jid).1.applications
        = db.applications
          ++ [Application.init uid jid job.company_id lettre now
                db.nextId] := hspec.1
    have hqdoc : ((Application.init uid jid job.company_id lettre now
        db.nextId)._id == db.nextId) = true := by simp [Application.init]
    have hfound : Application.find_by_id
        (Application.update_job_applications_count
          { db with
              applications := insert_document db.applications
                (Application.init uid jid job.company_id lettre now
                  db.nextId)
              nextId := db.nextId + 1 } jid).1 db.nextId
        = some (Application.init uid jid job.company_id lettre now
            db.nextId) := by
      unfold Application.find_by_id
      rw [happs2]
      exact find_document_append_singleton
        (fun a : ApplicationDoc => a._id == db.nextId)
        (Application.init uid jid job.company_id lettre now db.nextId)
        hqdoc db.applications hfresh
    have hdeleq := delete_by_id_eq _ db.nextId _ hfound
    have hD : delete_document
        (Application.update_job_applications_count
          { db with
              applications := insert_document db.applications
                (Application.init uid jid job.company_id lettre now
                  db.nextId)
              nextId := db.nextId + 1 } jid).1.applications
        (fun a => a._id == db.nextId) = (db.applications, true) := by
      rw [happs2]
      exact delete_document_append_singleton
        (fun a : ApplicationDoc => a._id == db.nextId)
        (Application.init uid jid job.company_id lettre now db.nextId)
        hqdoc db.applications hfresh
    have h0 : count_documents
        (delete_document
          (Application.update_job_applications_count
            { db with
                applications := insert_document db.applications
                  (Application.init uid jid job.company_id lettre now
                    db.nextId)
                nextId := db.nextId + 1 } jid).1.applications
          (fun a => a._id == db.nextId)).1
        (fun a => a.job_id == jid) = 0 := by
      rw [hD]
      exact count_documents_eq_zero _ _ hnoapp
    have hjobs3 : (Application.delete_by_id
        (Application.update_job_applications_count
          { db with
              applications := insert_document db.applications
                (Application.init uid jid job.company_id lettre now
                  db.nextId)
              nextId := db.nextId + 1 } jid).1 db.nextId).1.jobs
        = (update_document
            (Application.update_job_applications_count
              { db with
                  applications := insert_document db.applications
                    (Application.init uid jid job.company_id lettre now
                      db.nextId)
                  nextId := db.nextId + 1 } jid).1.jobs
            (fun j => j._id == jid)
            (fun j => { j with
              candidatures_count :=
                count_documents
                  (delete_document
                    (Application.update_job_applications_count
                      { db with
                          applications := insert_document db.applications
                            (Application.init uid jid job.company_id
                              lettre now db.nextId)
                          nextId := db.nextId + 1 } jid).1.applications
                    (fun a => a._id == db.nextId)).1
                  (fun a => a.job_id == jid) })).1 := by
      rw [hdeleq]
      rfl
    unfold Job.find_by_id find_document at hjb
    rw [hjobs3] at hjb
    rw [update_document_fst_find? (fun j : JobDoc => j._id == jid)
      (fun j => { j with
        candidatures_count :=
          count_documents
            (delete_document
              (Application.update_job_applications_count
                { db with
                    applications := insert_document db.applications
                      (Application.init uid jid job.company_id lettre now
                        db.nextId)
                    nextId := db.nextId + 1 } jid).1.applications
              (fun a => a._id == db.nextId)).1
            (fun a => a.job_id == jid) })
      (fun d hd => hd)] at hjb
    cases hbase : (Application.update_job_applications_count
        { db with
            applications := insert_document db.applications
              (Application.init uid jid job.company_id lettre now
                db.nextId)
            nextId := db.nextId + 1 } jid).1.jobs.find?
        (fun j => j._id == jid) with
    | none => rw [hbase] at hjb; simp at hjb
    | some jb0 =>
      rw [hbase] at hjb
      simp only [Option.map_some'] at hjb
      injection hjb with h
      rw [← h]
      exact h0

/-- Witness for C2: create then delete on a one-job store with no
applications; the stored counter ends at 0 (it started stale at 7). -/
theorem applications_count_consistency_witness :
    Job.find_by_id
        (Application.delete_by_id
          (create_application dbW0 "user" "u1" (some "j1") "" 5).2
          dbW0.nextId).1 "j1"
      = some { jobW with candidatures_count := 0 }
    ∧ ({ jobW with candidatures_count := 0 } : JobDoc).candidatures_count
      = 0 :=
  ⟨by decide,
    applications_count_consistency.2.2 dbW0 "u1" "j1" "" 5 jobW (by decide)
      (by decide) rfl (by decide) (by decide)
      { jobW with candidatures_count := 0 } (by decide)⟩

end InterimApp
